import Mathlib

/-!
Shallow embedding of the CommunAlert frontend (fleduc/CommunAlertFront).

Each definition translates one piece of the TypeScript source:
  * `src/types/models.ts`            — the data model records
  * `src/components/MessageItem.tsx` — reaction aggregation and rendering
  * `src/components/Reaction.tsx`    — the emoji picker panel
  * `src/pages/AlertDetail.tsx`      — detail-page state and handlers
  * `src/pages/AlertEdit.tsx`        — create/update/delete submissions
  * `src/pages/AlertsList.tsx`       — list fetching and alert creation
  * `src/pages/Login.tsx`, `src/components/Header.tsx`,
    `src/context/AuthContext.tsx`    — login, logout, session rehydration
  * `src/App.tsx`                    — routing shell

JavaScript objects used as string-keyed maps are embedded as association
lists in key-insertion order (an existing key keeps its position, a new key
is appended), matching the enumeration order of `Object.entries`.
-/

/-- `ReactionData` from `src/types/models.ts`. -/
structure ReactionData where
  id : Nat
  message_id : Nat
  user_id : Nat
  emoji : String
  created_at : String
deriving Repr, DecidableEq

/-- The inline sender record of `Message` in `src/types/models.ts`. -/
structure Sender where
  id : Nat
  username : String
deriving Repr, DecidableEq

/-- `Message` from `src/types/models.ts`. -/
structure Message where
  id : Nat
  content : String
  sender : Sender
  reactions : List ReactionData
  read : Bool
  sender_id : Nat
deriving Repr, DecidableEq

/-- `Alert` from `src/types/models.ts` (optional fields as `Option`). -/
structure Alert where
  id : Nat
  alert_title : String
  description : String
  alert_type : Int
  closing_date : Option String
  postal_code : Option String
  created_at : String
  user_id : Nat
  messages : List Message
deriving Repr, DecidableEq

/-- `User` from `src/context/AuthContext.tsx`. -/
structure User where
  id : Nat
  username : String
  email : String
deriving Repr, DecidableEq

/-- One step of the reduction in `MessageItem.tsx`:
`acc[reaction.emoji] = (acc[reaction.emoji] || 0) + 1` on a JS object,
embedded on an association list in key-insertion order: an existing key is
incremented in place, a missing key is appended with count 1. -/
def bumpEmoji : List (String × Nat) → String → List (String × Nat)
  | [], e => [(e, 1)]
  | (e', n) :: rest, e =>
      if e' = e then (e', n + 1) :: rest else (e', n) :: bumpEmoji rest e

/-- `aggregatedReactions` computed by `MessageItem.tsx`:
`message.reactions.reduce((acc, reaction) => { acc[reaction.emoji] = (acc[reaction.emoji] || 0) + 1; return acc; }, {})`. -/
def aggregatedReactions (reactions : List ReactionData) : List (String × Nat) :=
  reactions.foldl (fun acc r => bumpEmoji acc r.emoji) []

/-- Key lookup on the embedded JS object (`acc[e]`, `none` = `undefined`). -/
def lookupEmoji : List (String × Nat) → String → Option Nat
  | [], _ => none
  | (e', n) :: rest, e => if e' = e then some n else lookupEmoji rest e

/-- `undefined` counts as 0, as in `acc[emoji] || 0`. -/
def optCount (o : Option Nat) : Nat := o.getD 0

/-- The number of reactions on `rs` carrying emoji `e`. -/
def emojiCount (rs : List ReactionData) (e : String) : Nat :=
  rs.countP (fun r => r.emoji = e)

theorem lookupEmoji_bumpEmoji (acc : List (String × Nat)) (e' e : String) :
    lookupEmoji (bumpEmoji acc e') e =
      if e' = e then some (optCount (lookupEmoji acc e) + 1)
      else lookupEmoji acc e := by
  induction acc with
  | nil =>
      by_cases h : e' = e <;> simp [bumpEmoji, lookupEmoji, optCount, h]
  | cons p rest ih =>
      obtain ⟨a, n⟩ := p
      by_cases ha : a = e'
      · subst ha
        by_cases h : a = e <;>
          simp [bumpEmoji, lookupEmoji, optCount, h]
      · by_cases h : a = e
        · subst h
          have h' : ¬ e' = a := fun hc => ha hc.symm
          simp [bumpEmoji, lookupEmoji, optCount, ha, h']
        · simp [bumpEmoji, lookupEmoji, ha, h, ih]

theorem optCount_lookup_foldl (rs : List ReactionData)
    (acc : List (String × Nat)) (e : String) :
    optCount (lookupEmoji (rs.foldl (fun a r => bumpEmoji a r.emoji) acc) e) =
      optCount (lookupEmoji acc e) + emojiCount rs e := by
  induction rs generalizing acc with
  | nil => simp [emojiCount]
  | cons r rest ih =>
      rw [List.foldl_cons, ih]
      rw [lookupEmoji_bumpEmoji]
      by_cases h : r.emoji = e
      · simp [emojiCount, List.countP_cons, h, optCount]
        omega
      · simp [emojiCount, List.countP_cons, h]

theorem lookup_foldl_eq_none (rs : List ReactionData)
    (acc : List (String × Nat)) (e : String) :
    lookupEmoji (rs.foldl (fun a r => bumpEmoji a r.emoji) acc) e = none ↔
      lookupEmoji acc e = none ∧ emojiCount rs e = 0 := by
  induction rs generalizing acc with
  | nil => simp [emojiCount]
  | cons r rest ih =>
      rw [List.foldl_cons, ih, lookupEmoji_bumpEmoji]
      by_cases h : r.emoji = e
      · simp [emojiCount, List.countP_cons, h]
      · simp [emojiCount, List.countP_cons, h]

/-- Sanity check of the embedding on a concrete list: two "a" reactions
and one "b" aggregate, in insertion order, to `{ a: 2, b: 1 }`. -/
theorem aggregatedReactions_concrete :
    aggregatedReactions
      [⟨1, 1, 1, "a", "t"⟩, ⟨2, 1, 2, "b", "t"⟩, ⟨3, 1, 3, "a", "t"⟩] =
      [("a", 2), ("b", 1)] := by decide

/-- `hasReactions` in `MessageItem.tsx`:
`Object.keys(aggregatedReactions).length > 0`. -/
def hasReactions (msg : Message) : Bool :=
  decide (0 < ((aggregatedReactions msg.reactions).map Prod.fst).length)

/-- `MessageItem.tsx` renders the reaction bubble exactly when
`hasReactions` holds (`{hasReactions && (<div ...>)}`). -/
def messageItemShowsBubble (msg : Message) : Bool :=
  hasReactions msg

/-- One rendered emoji cell: the emoji text plus the optional red count
badge (`none` = no number shown). -/
structure EmojiSpan where
  emoji : String
  badge : Option Nat
deriving Repr, DecidableEq

/-- The cells of the reaction bubble in `MessageItem.tsx`:
`Object.entries(aggregatedReactions).map(([emoji, count]) => ...)`, where the
count badge is rendered under `{count > 1 && (<span>{count}</span>)}`. -/
def renderBubbleEntries (msg : Message) : List EmojiSpan :=
  (aggregatedReactions msg.reactions).map
    (fun p => ⟨p.1, if 1 < p.2 then some p.2 else none⟩)

/-- `availableEmojis` from `src/components/Reaction.tsx`. -/
def availableEmojis : List String :=
  ["👍", "❤️", "🤗", "😂", "😮", "😢"]

/-- The buttons of the emoji picker panel in `Reaction.tsx`: one per
available emoji, whose badge is rendered under
`{reactions[emoji] && reactions[emoji] > 1 && (<span>...)}`
(an absent key is `undefined`, hence falsy; a count of 1 fails the `> 1`
test; only counts above 1 show the number). -/
def renderPanelButtons (agg : List (String × Nat)) : List EmojiSpan :=
  availableEmojis.map (fun e =>
    ⟨e, match lookupEmoji agg e with
        | some n => if 1 < n then some n else none
        | none => none⟩)

/-- The `openReactionMessageId` toggle in `AlertDetail.tsx`
(`handleToggleReaction`): close the panel when it is already open for this
message, otherwise open it for this message. -/
def handleToggleReaction (openReactionMessageId : Option Nat)
    (messageId : Nat) : Option Nat :=
  if openReactionMessageId = some messageId then none else some messageId

/-- The `isOpen` prop computed in `AlertDetail.tsx`:
`openReactionMessageId === message.id`. -/
def isOpenFor (openReactionMessageId : Option Nat) (messageId : Nat) : Bool :=
  openReactionMessageId = some messageId

/-- The states of `openReactionMessageId` reachable from its initial value
`null` by any sequence of `handleToggleReaction` calls. -/
inductive ReachableOpenState : Option Nat → Prop where
  | init : ReachableOpenState none
  | step (s : Option Nat) (m : Nat) :
      ReachableOpenState s → ReachableOpenState (handleToggleReaction s m)

/-- Effects a click handler on the detail page can emit: an
`onAddReaction` invocation (the reaction POST) or a
`setOpenReactionMessageId` write. -/
inductive UIEffect where
  | addReaction (messageId : Nat) (emoji : String)
  | setOpenReaction (v : Option Nat)
deriving Repr, DecidableEq

/-- The state write a call of `handleToggleReaction` enqueues. Inside one
event handler every call reads the same render-closure snapshot `s` of
`openReactionMessageId` (the component does not use functional updates), so
the write is a function of the snapshot, not of earlier writes. -/
def toggleWrite (s : Option Nat) (m : Nat) : Option Nat :=
  if s = some m then none else some m

/-- The effect trace of clicking an emoji button in `Reaction.tsx` while
`MessageItem` is rendered with snapshot `s` of `openReactionMessageId`:
the button `onClick` runs `onSelect(emoji)` then `onClose()`;
`MessageItem` wires `onSelect` to `onAddReaction(message.id, emoji)`
followed by `onToggleReaction(message.id)`, and `onClose` to
`onToggleReaction(message.id)`. -/
def emojiClickEffects (s : Option Nat) (m : Nat) (emoji : String) :
    List UIEffect :=
  [UIEffect.addReaction m emoji,
   UIEffect.setOpenReaction (toggleWrite s m),
   UIEffect.setOpenReaction (toggleWrite s m)]

/-- React applies the queued state writes in order; the last write wins. -/
def applyEffects (s : Option Nat) : List UIEffect → Option Nat
  | [] => s
  | UIEffect.addReaction _ _ :: rest => applyEffects s rest
  | UIEffect.setOpenReaction v :: rest => applyEffects v rest

/-- Extracts the arguments of an `onAddReaction` invocation. -/
def addReactionArgs : UIEffect → Option (Nat × String)
  | UIEffect.addReaction m e => some (m, e)
  | UIEffect.setOpenReaction _ => none

/-- Counts the `onToggleReaction`-induced state writes in a trace. -/
def countToggleWrites (effects : List UIEffect) : Nat :=
  effects.countP (fun e =>
    match e with
    | UIEffect.setOpenReaction _ => true
    | UIEffect.addReaction _ _ => false)

/-- HTTP methods used by the client. -/
inductive HttpMethod where
  | GET
  | POST
  | PUT
  | DELETE
deriving Repr, DecidableEq

/-- One part appended to a `FormData` body in `AlertEdit.tsx`: either a
JSON-encoded string field (`formData.append(key, JSON.stringify(obj))`) or
a binary file field (`formData.append(key, file)`). -/
inductive FormPart where
  | jsonField (key : String) (fields : List (String × String))
  | fileField (key : String) (fileName : String)
deriving Repr, DecidableEq

/-- A request body: absent, `JSON.stringify` of an object (embedded as its
key/value pairs), or multipart `FormData`. -/
inductive RequestBody where
  | none
  | json (fields : List (String × String))
  | formData (parts : List FormPart)
deriving Repr, DecidableEq

/-- One `fetch` call as the client issues it: method, path relative to
`API_URL`, explicit headers, whether `credentials: 'include'` is passed,
and the body. -/
structure Request where
  method : HttpMethod
  path : String
  headers : List (String × String)
  credentialsInclude : Bool
  body : RequestBody
deriving Repr, DecidableEq

/-- The `'Content-Type': 'application/json'` header. -/
def contentTypeJson : String × String :=
  ("Content-Type", "application/json")

/-- `AuthContext.tsx` `fetchUser`: `fetch(API_URL + /auth/me, { credentials: 'include' })`
(no explicit method, so GET; no headers; no body). -/
def authMeRequest : Request :=
  ⟨HttpMethod.GET, "/auth/me", [], true, RequestBody.none⟩

/-- `Login.tsx` `handleSubmit`: POST `/auth/login` with a JSON body
`{ email, password }` and `credentials: 'include'`. -/
def loginRequest (email password : String) : Request :=
  ⟨HttpMethod.POST, "/auth/login", [contentTypeJson], true,
   RequestBody.json [("email", email), ("password", password)]⟩

/-- `Header.tsx` `handleLogout`: POST `/auth/logout` with
`credentials: 'include'` and no body. -/
def logoutRequest : Request :=
  ⟨HttpMethod.POST, "/auth/logout", [], true, RequestBody.none⟩

/-- `AlertsList.tsx` `fetchAlerts`: GET `/alerts` with a JSON content-type
header and `credentials: 'include'`. -/
def fetchAlertsRequest : Request :=
  ⟨HttpMethod.GET, "/alerts", [contentTypeJson], true, RequestBody.none⟩

/-- `AlertsList.tsx` `handleCreateAlert`: POST `/alerts` with headers
`'Content-Type': 'application/json'` and
`'Authorization': Bearer ${token}` where
`token = localStorage.getItem('token')` (JS template interpolation turns a
`null` token into the string `"null"`), `credentials: 'include'`, and a
JSON body `{ title, description }`. -/
def createAlertListRequest (title description : String)
    (storedToken : Option String) : Request :=
  ⟨HttpMethod.POST, "/alerts",
   [contentTypeJson, ("Authorization", "Bearer " ++ storedToken.getD "null")],
   true, RequestBody.json [("title", title), ("description", description)]⟩

/-- `AlertDetail.tsx` `fetchAlertDetail`, first call: GET `/alerts/${id}`
with `credentials: 'include'`. -/
def alertDetailRequest (i : String) : Request :=
  ⟨HttpMethod.GET, "/alerts/" ++ i, [], true, RequestBody.none⟩

/-- `AlertDetail.tsx` `fetchAlertDetail`, second call: GET
`/alerts/${id}/messages/` with `credentials: 'include'`. -/
def messagesRequest (i : String) : Request :=
  ⟨HttpMethod.GET, "/alerts/" ++ i ++ "/messages/", [], true,
   RequestBody.none⟩

/-- `AlertDetail.tsx` `handleSendMessage`: POST `/alerts/${id}/messages/`
with a JSON body `{ content }` and `credentials: 'include'`. -/
def sendMessageRequest (i content : String) : Request :=
  ⟨HttpMethod.POST, "/alerts/" ++ i ++ "/messages/", [contentTypeJson],
   true, RequestBody.json [("content", content)]⟩

/-- `AlertDetail.tsx` `handleAddReaction`: POST
`/alerts/${id}/messages/${messageId}/reaction` with a JSON body
`{ emoji }` and `credentials: 'include'`. -/
def addReactionRequest (i : String) (messageId : Nat) (emoji : String) :
    Request :=
  ⟨HttpMethod.POST,
   "/alerts/" ++ i ++ "/messages/" ++ toString messageId ++ "/reaction",
   [contentTypeJson], true, RequestBody.json [("emoji", emoji)]⟩

/-- `AlertEdit.tsx` `fetchAlert` (edit mode): GET `/alerts/${id}` with
`credentials: 'include'`. -/
def alertEditFetchRequest (i : String) : Request :=
  ⟨HttpMethod.GET, "/alerts/" ++ i, [], true, RequestBody.none⟩

/-- The alert form state of `AlertEdit.tsx` (`AlertData`); the optional
`image` file is embedded by its name. -/
structure AlertFormState where
  alert_title : String
  description : String
  alert_type : Int
  severity_level : String
  starting_date : String
  closing_date : String
  planned_duration : Int
  public_status : Bool
  postal_code : String
  longitude : Int
  latitude : Int
  radius : Int
  image : Option String
deriving Repr, DecidableEq

/-- The `payload` object built in `AlertEdit.tsx` `handleSubmit`: every
alert field except `image`, JSON-encoded under the key `alert`. -/
def payloadFields (a : AlertFormState) : List (String × String) :=
  [("alert_title", a.alert_title),
   ("description", a.description),
   ("alert_type", toString a.alert_type),
   ("severity_level", a.severity_level),
   ("starting_date", a.starting_date),
   ("closing_date", a.closing_date),
   ("planned_duration", toString a.planned_duration),
   ("public_status", toString a.public_status),
   ("postal_code", a.postal_code),
   ("longitude", toString a.longitude),
   ("latitude", toString a.latitude),
   ("radius", toString a.radius)]

/-- The `FormData` built in `AlertEdit.tsx` `handleSubmit`:
`formData.append('alert', JSON.stringify(payload))`, then
`formData.append('file', alertData.image)` only if an image is selected. -/
def submitFormParts (a : AlertFormState) : List FormPart :=
  [FormPart.jsonField "alert" (payloadFields a)] ++
    (match a.image with
     | some f => [FormPart.fileField "file" f]
     | none => [])

/-- `AlertEdit.tsx` `handleSubmit`: PUT `/alerts/${id}` when editing,
POST `/alerts` when creating, both with `credentials: 'include'`, no
explicit headers, and the multipart `FormData` body. -/
def alertSubmitRequest (isEditing : Bool) (i : String)
    (a : AlertFormState) : Request :=
  ⟨if isEditing then HttpMethod.PUT else HttpMethod.POST,
   if isEditing then "/alerts/" ++ i else "/alerts",
   [], true, RequestBody.formData (submitFormParts a)⟩

/-- `AlertEdit.tsx` `handleDelete`: DELETE `/alerts/${id}` with
`credentials: 'include'` and no body. -/
def alertDeleteRequest (i : String) : Request :=
  ⟨HttpMethod.DELETE, "/alerts/" ++ i, [], true, RequestBody.none⟩

/-- The requests the client issues: one constructor per `fetch` call site
in the source, quantified over that site's runtime parameters. -/
inductive IsClientRequest : Request → Prop where
  | authMe : IsClientRequest authMeRequest
  | login (e p : String) : IsClientRequest (loginRequest e p)
  | logout : IsClientRequest logoutRequest
  | fetchAlerts : IsClientRequest fetchAlertsRequest
  | createFromList (t d : String) (k : Option String) :
      IsClientRequest (createAlertListRequest t d k)
  | alertDetail (i : String) : IsClientRequest (alertDetailRequest i)
  | messages (i : String) : IsClientRequest (messagesRequest i)
  | sendMessage (i c : String) : IsClientRequest (sendMessageRequest i c)
  | addReaction (i : String) (m : Nat) (e : String) :
      IsClientRequest (addReactionRequest i m e)
  | editFetch (i : String) : IsClientRequest (alertEditFetchRequest i)
  | submit (b : Bool) (i : String) (a : AlertFormState) :
      IsClientRequest (alertSubmitRequest b i a)
  | delete (i : String) : IsClientRequest (alertDeleteRequest i)

/-- Whether a request carries an `Authorization` header. -/
def hasAuthorizationHeader (r : Request) : Bool :=
  r.headers.any (fun h => h.1 = "Authorization")

/-- The component state of `AlertDetail.tsx` touched by
`fetchAlertDetail`: `alertData` (initially `null`) and `error`
(initially `''`). -/
structure AlertDetailState where
  alertData : Option Alert
  error : String
deriving Repr, DecidableEq

/-- The outcome of one awaited fetch-and-parse: `ok` with the parsed JSON,
or `error` with the message of the thrown `Error` (the fixed string thrown
on a non-2xx response, or the message of a network/parse exception). -/
def FetchOutcome (α : Type) : Type := Except String α

/-- `fetchAlertDetail` in `AlertDetail.tsx` as a state transformer.
With no `id` it sets the error and returns. Otherwise it awaits the alert
fetch, then the messages fetch; the first failure jumps to the `catch`
block, which only sets `error`. On double success it stores
`{ ...alertInfo, messages }`: the fetched alert record with its `messages`
field replaced by the separately fetched list. -/
def fetchAlertDetail (i : Option String)
    (alertFetch : FetchOutcome Alert)
    (messagesFetch : FetchOutcome (List Message))
    (s : AlertDetailState) : AlertDetailState :=
  match i with
  | none => { s with error := "No alert ID provided." }
  | some _ =>
      match alertFetch with
      | Except.error e => { s with error := e }
      | Except.ok alertInfo =>
          match messagesFetch with
          | Except.error e => { s with error := e }
          | Except.ok msgs =>
              { s with alertData := some { alertInfo with messages := msgs } }

/-- The user-triggered page actions of the app, one per handler the spec
enumerates: the mount fetches, message send, reaction add, the alert
create/update/delete submissions (plus the list page's own create), login
and logout. -/
inductive PageAction where
  | fetchAlerts
  | fetchAlertDetailAction
  | sendMessage
  | addReaction
  | fetchAlertForEdit
  | submitAlert
  | deleteAlert
  | createAlertFromList
  | login
  | logout
deriving Repr, DecidableEq

/-- What an action's failure path does: the error message stored in
component state (if any), whether the failure is instead logged to the
console, and how many retry requests are issued. -/
structure FailureBehavior where
  stateError : Option String
  consoleError : Bool
  retryRequests : Nat
deriving Repr, DecidableEq

/-- The `catch` block of each action, applied to the message `msg` of the
caught error. Every handler catches locally. All of them run
`setError(err.message)` — except `Header.tsx` `handleLogout`, whose catch
block only runs `console.error("Logout error:", error)` and never touches
component state. No catch block re-issues the failed request. -/
def onFailure : PageAction → String → FailureBehavior
  | PageAction.fetchAlerts, msg => ⟨some msg, false, 0⟩
  | PageAction.fetchAlertDetailAction, msg => ⟨some msg, false, 0⟩
  | PageAction.sendMessage, msg => ⟨some msg, false, 0⟩
  | PageAction.addReaction, msg => ⟨some msg, false, 0⟩
  | PageAction.fetchAlertForEdit, msg => ⟨some msg, false, 0⟩
  | PageAction.submitAlert, msg => ⟨some msg, false, 0⟩
  | PageAction.deleteAlert, msg => ⟨some msg, false, 0⟩
  | PageAction.createAlertFromList, msg => ⟨some msg, false, 0⟩
  | PageAction.login, msg => ⟨some msg, false, 0⟩
  | PageAction.logout, _ => ⟨none, true, 0⟩

/-- What the routing shell renders: the login page, the auth-loading
placeholder, a `Navigate` redirect, or a protected page component. -/
inductive Rendered where
  | loginPage
  | loadingDiv
  | redirect (target : String)
  | page (name : String)
deriving Repr, DecidableEq

/-- The inner `Routes` of `ProtectedRoutes` in `App.tsx`:
`/alerts` → AlertsList, `/alerts/edit/:id` → AlertEdit,
`/alerts/create` → AlertEdit, `/alerts/:id` → AlertDetail,
`*` → `Navigate to /alerts`. -/
def innerRoutes (path : String) : Rendered :=
  if path = "/alerts" then Rendered.page "AlertsList"
  else if path = "/alerts/create" then Rendered.page "AlertEdit"
  else if path.startsWith "/alerts/edit/" then Rendered.page "AlertEdit"
  else if path.startsWith "/alerts/" then Rendered.page "AlertDetail"
  else Rendered.redirect "/alerts"

/-- `ProtectedRoutes` in `App.tsx`: show the loading placeholder while
auth state loads, redirect to `/login` when no user is present, otherwise
render the protected routes. -/
def protectedRoutes (loading : Bool) (user : Option User)
    (path : String) : Rendered :=
  if loading then Rendered.loadingDiv
  else
    match user with
    | none => Rendered.redirect "/login"
    | some _ => innerRoutes path

/-- The top-level `Routes` of `App.tsx`: `/login` → Login,
`/*` → `ProtectedRoutes`. -/
def renderApp (loading : Bool) (user : Option User) (path : String) :
    Rendered :=
  if path = "/login" then Rendered.loginPage
  else protectedRoutes loading user path

theorem lookup_aggregatedReactions (rs : List ReactionData) (e : String) :
    lookupEmoji (aggregatedReactions rs) e =
      if emojiCount rs e = 0 then none else some (emojiCount rs e) := by
  by_cases h : emojiCount rs e = 0
  · have h0 := (lookup_foldl_eq_none rs [] e).mpr ⟨rfl, h⟩
    simp [aggregatedReactions, h0, h]
  · have hc := optCount_lookup_foldl rs [] e
    have hne : lookupEmoji (aggregatedReactions rs) e ≠ none := by
      intro hn
      exact h ((lookup_foldl_eq_none rs [] e).mp hn).2
    obtain ⟨n, hn⟩ := Option.ne_none_iff_exists'.mp hne
    rw [aggregatedReactions] at hn
    rw [hn] at hc
    simp [lookupEmoji, optCount] at hc
    simp [aggregatedReactions, hn, hc, h]

theorem lookupEmoji_eq_none_iff (acc : List (String × Nat)) (e : String) :
    lookupEmoji acc e = none ↔ e ∉ acc.map Prod.fst := by
  induction acc with
  | nil => simp [lookupEmoji]
  | cons p rest ih =>
      obtain ⟨a, n⟩ := p
      by_cases h : a = e
      · subst h
        simp [lookupEmoji]
      · have h' : ¬ e = a := fun hc => h hc.symm
        simp [lookupEmoji, h, h', ih]

theorem keys_bumpEmoji (acc : List (String × Nat)) (e : String) :
    (bumpEmoji acc e).map Prod.fst =
      if e ∈ acc.map Prod.fst then acc.map Prod.fst
      else acc.map Prod.fst ++ [e] := by
  induction acc with
  | nil => simp [bumpEmoji]
  | cons p rest ih =>
      obtain ⟨a, n⟩ := p
      by_cases h : a = e
      · subst h
        simp [bumpEmoji]
      · have h' : ¬ e = a := fun hc => h hc.symm
        by_cases hm : e ∈ rest.map Prod.fst <;>
          simp [bumpEmoji, h, h', hm, ih]

theorem nodup_keys_bumpEmoji (acc : List (String × Nat)) (e : String)
    (h : (acc.map Prod.fst).Nodup) :
    ((bumpEmoji acc e).map Prod.fst).Nodup := by
  rw [keys_bumpEmoji]
  by_cases hm : e ∈ acc.map Prod.fst
  · simpa [hm] using h
  · simp [hm, List.nodup_append, h]

theorem nodup_keys_agg_foldl (rs : List ReactionData)
    (acc : List (String × Nat)) (h : (acc.map Prod.fst).Nodup) :
    (((rs.foldl (fun a r => bumpEmoji a r.emoji) acc)).map Prod.fst).Nodup := by
  induction rs generalizing acc with
  | nil => simpa using h
  | cons r rest ih =>
      rw [List.foldl_cons]
      exact ih _ (nodup_keys_bumpEmoji acc r.emoji h)

theorem mem_lookupEmoji (acc : List (String × Nat)) (e : String) (n : Nat)
    (hnd : (acc.map Prod.fst).Nodup) (hm : (e, n) ∈ acc) :
    lookupEmoji acc e = some n := by
  induction acc with
  | nil => cases hm
  | cons p rest ih =>
      obtain ⟨a, k⟩ := p
      have hnd' : (a :: rest.map Prod.fst).Nodup := by simpa using hnd
      rcases List.mem_cons.mp hm with heq | htail
      · injection heq with he hk
        subst he
        subst hk
        simp [lookupEmoji]
      · have ha : a ∉ rest.map Prod.fst := (List.nodup_cons.mp hnd').1
        have hrest : (rest.map Prod.fst).Nodup := (List.nodup_cons.mp hnd').2
        have hme : e ∈ rest.map Prod.fst :=
          List.mem_map.mpr ⟨(e, n), htail, rfl⟩
        have hne : ¬ a = e := fun hc => ha (hc ▸ hme)
        simp [lookupEmoji, hne, ih hrest htail]

theorem sum_bumpEmoji (acc : List (String × Nat)) (e : String) :
    ((bumpEmoji acc e).map Prod.snd).sum = ((acc.map Prod.snd).sum) + 1 := by
  induction acc with
  | nil => simp [bumpEmoji]
  | cons p rest ih =>
      obtain ⟨a, n⟩ := p
      by_cases h : a = e
      · subst h
        simp [bumpEmoji]
        omega
      · simp [bumpEmoji, h, ih]
        omega

theorem sum_agg_foldl (rs : List ReactionData) (acc : List (String × Nat)) :
    (((rs.foldl (fun a r => bumpEmoji a r.emoji) acc)).map Prod.snd).sum =
      ((acc.map Prod.snd).sum) + rs.length := by
  induction rs generalizing acc with
  | nil => simp
  | cons r rest ih =>
      rw [List.foldl_cons, ih, sum_bumpEmoji, List.length_cons]
      omega

theorem mem_bumpEmoji_one_le (acc : List (String × Nat)) (e : String)
    (h : ∀ p ∈ acc, 1 ≤ p.2) : ∀ p ∈ bumpEmoji acc e, 1 ≤ p.2 := by
  induction acc with
  | nil =>
      intro p hp
      simp [bumpEmoji] at hp
      simp [hp]
  | cons q rest ih =>
      obtain ⟨a, n⟩ := q
      intro p hp
      by_cases ha : a = e
      · subst ha
        simp [bumpEmoji] at hp
        rcases hp with hp | hp
        · simp [hp]
        · exact h p (List.mem_cons_of_mem _ hp)
      · simp [bumpEmoji, ha] at hp
        rcases hp with hp | hp
        · exact hp ▸ h (a, n) (List.mem_cons_self _ _)
        · exact ih (fun q hq => h q (List.mem_cons_of_mem _ hq)) p hp

theorem mem_agg_foldl_one_le (rs : List ReactionData)
    (acc : List (String × Nat)) (h : ∀ p ∈ acc, 1 ≤ p.2) :
    ∀ p ∈ rs.foldl (fun a r => bumpEmoji a r.emoji) acc, 1 ≤ p.2 := by
  induction rs generalizing acc with
  | nil => simpa using h
  | cons r rest ih =>
      rw [List.foldl_cons]
      exact ih _ (mem_bumpEmoji_one_le acc r.emoji h)

theorem bumpEmoji_ne_nil (acc : List (String × Nat)) (e : String) :
    bumpEmoji acc e ≠ [] := by
  cases acc with
  | nil => simp [bumpEmoji]
  | cons p rest =>
      obtain ⟨a, n⟩ := p
      by_cases h : a = e <;> simp [bumpEmoji, h]

theorem agg_foldl_ne_nil (rs : List ReactionData)
    (acc : List (String × Nat)) (h : acc ≠ []) :
    rs.foldl (fun a r => bumpEmoji a r.emoji) acc ≠ [] := by
  induction rs generalizing acc with
  | nil => simpa using h
  | cons r rest ih =>
      rw [List.foldl_cons]
      exact ih _ (bumpEmoji_ne_nil acc r.emoji)

theorem aggregatedReactions_eq_nil_iff (rs : List ReactionData) :
    aggregatedReactions rs = [] ↔ rs = [] := by
  constructor
  · intro h
    cases rs with
    | nil => rfl
    | cons r rest =>
        exact absurd (by simpa [aggregatedReactions] using h)
          (agg_foldl_ne_nil rest (bumpEmoji [] r.emoji)
            (bumpEmoji_ne_nil [] r.emoji))
  · intro h
    simp [h, aggregatedReactions]

/-- C1: for every message, the aggregated reactions map computed by
`MessageItem` assigns to each emoji string exactly the number of elements
of `message.reactions` whose `emoji` field equals that string, and the map
contains a key for an emoji if and only if at least one reaction with that
emoji exists in the list. -/
theorem c1_aggregated_reaction_counts (msg : Message) (e : String) :
    lookupEmoji (aggregatedReactions msg.reactions) e =
      (if emojiCount msg.reactions e = 0 then none
       else some (emojiCount msg.reactions e))
    ∧ (e ∈ (aggregatedReactions msg.reactions).map Prod.fst ↔
        emojiCount msg.reactions e ≠ 0) := by
  constructor
  · exact lookup_aggregatedReactions msg.reactions e
  · rw [← not_iff_not, not_not, ← lookupEmoji_eq_none_iff,
      lookup_aggregatedReactions msg.reactions e]
    by_cases h : emojiCount msg.reactions e = 0 <;> simp [h]

/-- C8: for every message, the sum over all emoji keys of the aggregated
reaction counts equals the length of `message.reactions`, every count in
the map is at least 1, and the reaction bubble is rendered if and only if
the reactions list is non-empty. -/
theorem c8_aggregation_invariants (msg : Message) :
    ((aggregatedReactions msg.reactions).map Prod.snd).sum =
      msg.reactions.length
    ∧ (∀ p ∈ aggregatedReactions msg.reactions, 1 ≤ p.2)
    ∧ (messageItemShowsBubble msg = true ↔ msg.reactions ≠ []) := by
  refine ⟨?_, ?_, ?_⟩
  · simpa using sum_agg_foldl msg.reactions []
  · exact mem_agg_foldl_one_le msg.reactions [] (by simp)
  · rw [messageItemShowsBubble, hasReactions]
    simp only [decide_eq_true_eq, List.length_map, List.length_pos]
    exact not_iff_not.mpr (aggregatedReactions_eq_nil_iff msg.reactions)

/-- C8 witness: at a message carrying reactions 👍, 👍, ❤️ the counts sum
to 3, the count of the entry ("👍", 2) is at least 1, and the bubble is
rendered. -/
theorem c8_aggregation_invariants_witness :
    (1 : Nat) ≤ (("👍", 2) : String × Nat).2 ∧
    (⟨5, "hello", ⟨1, "ann"⟩,
      [⟨1, 5, 1, "👍", "t1"⟩, ⟨2, 5, 2, "👍", "t2"⟩, ⟨3, 5, 3, "❤️", "t3"⟩],
      false, 1⟩ : Message).reactions ≠ [] := by
  have h := c8_aggregation_invariants
    ⟨5, "hello", ⟨1, "ann"⟩,
      [⟨1, 5, 1, "👍", "t1"⟩, ⟨2, 5, 2, "👍", "t2"⟩, ⟨3, 5, 3, "❤️", "t3"⟩],
      false, 1⟩
  exact ⟨h.2.1 ("👍", 2) (by decide), h.2.2.mp (by decide)⟩

/-- C10: for every emoji displayed in the reaction bubble or the emoji
picker panel, a numeric count badge is rendered if and only if that
emoji's aggregated count is strictly greater than 1; an emoji with exactly
one reaction is shown without any number. -/
theorem c10_count_badges (msg : Message) (span : EmojiSpan) :
    (span ∈ renderBubbleEntries msg →
      span.badge =
        if 1 < emojiCount msg.reactions span.emoji
        then some (emojiCount msg.reactions span.emoji) else none)
    ∧ (span ∈ renderPanelButtons (aggregatedReactions msg.reactions) →
      span.badge =
        if 1 < emojiCount msg.reactions span.emoji
        then some (emojiCount msg.reactions span.emoji) else none) := by
  constructor
  · intro hmem
    rw [renderBubbleEntries] at hmem
    obtain ⟨p, hp, hspan⟩ := List.mem_map.mp hmem
    have hnd : ((aggregatedReactions msg.reactions).map Prod.fst).Nodup :=
      nodup_keys_agg_foldl msg.reactions [] (by simp)
    have hl : lookupEmoji (aggregatedReactions msg.reactions) p.1 = some p.2 :=
      mem_lookupEmoji _ p.1 p.2 hnd (by simpa using hp)
    rw [lookup_aggregatedReactions] at hl
    by_cases h0 : emojiCount msg.reactions p.1 = 0
    · simp [h0] at hl
    · simp [h0] at hl
      subst hspan
      simp [hl]
  · intro hmem
    rw [renderPanelButtons] at hmem
    obtain ⟨e, _, hspan⟩ := List.mem_map.mp hmem
    subst hspan
    rw [lookup_aggregatedReactions]
    by_cases h0 : emojiCount msg.reactions e = 0
    · simp [h0]
    · have h1 : 1 ≤ emojiCount msg.reactions e := Nat.one_le_iff_ne_zero.mpr h0
      by_cases h2 : 1 < emojiCount msg.reactions e <;> simp [h0, h2]

/-- C10 witness: on a message with two 👍 and one ❤️, the bubble cell for
👍 carries the badge 2 and the picker button for ❤️ carries no badge. -/
theorem c10_count_badges_witness :
    (⟨"👍", some 2⟩ : EmojiSpan).badge = some 2 ∧
    (⟨"❤️", none⟩ : EmojiSpan).badge = none := by
  have h1 := (c10_count_badges
    ⟨5, "hello", ⟨1, "ann"⟩,
      [⟨1, 5, 1, "👍", "t1"⟩, ⟨2, 5, 2, "👍", "t2"⟩, ⟨3, 5, 3, "❤️", "t3"⟩],
      false, 1⟩ ⟨"👍", some 2⟩).1 (by decide)
  have h2 := (c10_count_badges
    ⟨5, "hello", ⟨1, "ann"⟩,
      [⟨1, 5, 1, "👍", "t1"⟩, ⟨2, 5, 2, "👍", "t2"⟩, ⟨3, 5, 3, "❤️", "t3"⟩],
      false, 1⟩ ⟨"❤️", none⟩).2 (by decide)
  constructor
  · rw [h1]
    decide
  · rw [h2]
    decide

/-- C4: in every reachable state of the AlertDetail page at most one
message's reaction-picker panel is open (`openReactionMessageId` is null
or a single message id), and `handleToggleReaction m` closes the panel
when it is already open for message `m` and otherwise opens it for `m`
while any panel open for another message becomes closed. -/
theorem c4_single_open_panel :
    (∀ s, ReachableOpenState s → ∀ m m',
      isOpenFor s m = true → isOpenFor s m' = true → m = m')
    ∧ (∀ s m, isOpenFor s m = true → handleToggleReaction s m = none)
    ∧ (∀ s m, isOpenFor s m = false →
        isOpenFor (handleToggleReaction s m) m = true
        ∧ ∀ m', m' ≠ m →
            isOpenFor (handleToggleReaction s m) m' = false) := by
  refine ⟨?_, ?_, ?_⟩
  · intro s _ m m' hm hm'
    simp [isOpenFor] at hm hm'
    rw [hm] at hm'
    exact Option.some.inj hm'
  · intro s m hm
    simp [isOpenFor] at hm
    simp [handleToggleReaction, hm]
  · intro s m hm
    simp [isOpenFor] at hm
    constructor
    · simp [handleToggleReaction, isOpenFor, hm]
    · intro m' hne
      simp [handleToggleReaction, isOpenFor, hm, hne]
      exact fun hc => hne hc.symm

/-- C4 witness: the state reached from the initial null by toggling
message 7 has message 7's panel open, so the at-most-one part applied at
this state with m = m' = 7 yields 7 = 7; toggling 7 again closes it. -/
theorem c4_single_open_panel_witness :
    (7 : Nat) = 7 ∧ handleToggleReaction (some 7) 7 = none := by
  have hreach : ReachableOpenState (some 7) := by
    have h := ReachableOpenState.step none 7 ReachableOpenState.init
    have he : handleToggleReaction none 7 = some 7 := by
      simp [handleToggleReaction]
    rwa [he] at h
  exact ⟨c4_single_open_panel.1 (some 7) hreach 7 7 (by decide) (by decide),
    c4_single_open_panel.2.1 (some 7) 7 (by decide)⟩

/-- C9: for every message `m` whose reaction panel is open, selecting an
emoji in the panel invokes `onAddReaction(m, emoji)` exactly once and
leaves the panel closed (`openReactionMessageId = null`) after the click
handler completes, even though the handler triggers `onToggleReaction(m)`
twice (once via `onSelect` and once via `onClose`): both toggle calls read
the same render-closure snapshot, so both enqueue the same `null` write. -/
theorem c9_emoji_click_closes_panel (s : Option Nat) (m : Nat)
    (emoji : String) (hopen : s = some m) :
    (emojiClickEffects s m emoji).filterMap addReactionArgs = [(m, emoji)]
    ∧ countToggleWrites (emojiClickEffects s m emoji) = 2
    ∧ applyEffects s (emojiClickEffects s m emoji) = none := by
  subst hopen
  refine ⟨?_, ?_, ?_⟩ <;>
    simp [emojiClickEffects, addReactionArgs, countToggleWrites,
      applyEffects, toggleWrite, List.countP_cons]

/-- C9 witness: clicking 😂 with the panel open for message 3. -/
theorem c9_emoji_click_closes_panel_witness :
    (emojiClickEffects (some 3) 3 "😂").filterMap addReactionArgs =
      [(3, "😂")]
    ∧ countToggleWrites (emojiClickEffects (some 3) 3 "😂") = 2
    ∧ applyEffects (some 3) (emojiClickEffects (some 3) 3 "😂") = none :=
  c9_emoji_click_closes_panel (some 3) 3 "😂" rfl

/-- C2 counterexample: logout is one of the listed page actions, but a
failure of `handleLogout` (message "Error during logout") is not
converted into a message stored in component state — the catch block only
logs to the console, so `stateError` stays `none`. -/
theorem c2_counterexample :
    ¬ ((onFailure PageAction.logout "Error during logout").stateError =
        some "Error during logout") := by
  simp [onFailure]

/-- C2 amended: every failure of a page action is caught locally and no
retry request is issued; for every action except logout the failure is
converted into a plain-text message stored in component state
(`setError(err.message)`), while a logout failure is only logged to the
console and leaves component state untouched. -/
theorem c2_failures_caught_locally (a : PageAction) (msg : String) :
    (onFailure a msg).retryRequests = 0
    ∧ (a ≠ PageAction.logout →
        onFailure a msg = ⟨some msg, false, 0⟩)
    ∧ (a = PageAction.logout →
        onFailure a msg = ⟨none, true, 0⟩) := by
  cases a <;> simp [onFailure]

/-- C2 witness: a failed login stores its message in state and issues no
retry; a failed logout stores nothing and issues no retry. -/
theorem c2_failures_caught_locally_witness :
    onFailure PageAction.login "Authentication error" =
      ⟨some "Authentication error", false, 0⟩
    ∧ onFailure PageAction.logout "Error during logout" =
      ⟨none, true, 0⟩ :=
  ⟨(c2_failures_caught_locally PageAction.login "Authentication error").2.1
      (by decide),
   (c2_failures_caught_locally PageAction.logout "Error during logout").2.2
      rfl⟩

/-- C3 counterexample: the create-alert request issued by
`handleCreateAlert` in `AlertsList.tsx` carries an `Authorization` header
built from the token read from `localStorage`, refuting the claim that no
client request carries a manually forwarded bearer token. -/
theorem c3_counterexample :
    IsClientRequest (createAlertListRequest "t" "d" (some "tok"))
    ∧ hasAuthorizationHeader
        (createAlertListRequest "t" "d" (some "tok")) = true :=
  ⟨IsClientRequest.createFromList "t" "d" (some "tok"), by decide⟩

/-- C3 amended: every request the client issues passes
`credentials: 'include'`, and none carries an `Authorization` header
except the create-alert request of `AlertsList.tsx`'s
`handleCreateAlert`, which additionally forwards
`Bearer ${localStorage.getItem('token')}`. -/
theorem c3_cookie_auth_except_list_create (r : Request)
    (h : IsClientRequest r) :
    r.credentialsInclude = true
    ∧ (hasAuthorizationHeader r = true →
        ∃ t d k, r = createAlertListRequest t d k) := by
  cases h with
  | authMe =>
      exact ⟨rfl, fun hc => absurd hc (by
        simp [hasAuthorizationHeader, authMeRequest])⟩
  | login e p =>
      exact ⟨rfl, fun hc => absurd hc (by
        simp [hasAuthorizationHeader, loginRequest, contentTypeJson])⟩
  | logout =>
      exact ⟨rfl, fun hc => absurd hc (by
        simp [hasAuthorizationHeader, logoutRequest])⟩
  | fetchAlerts =>
      exact ⟨rfl, fun hc => absurd hc (by
        simp [hasAuthorizationHeader, fetchAlertsRequest, contentTypeJson])⟩
  | createFromList t d k =>
      exact ⟨rfl, fun _ => ⟨t, d, k, rfl⟩⟩
  | alertDetail i =>
      exact ⟨rfl, fun hc => absurd hc (by
        simp [hasAuthorizationHeader, alertDetailRequest])⟩
  | messages i =>
      exact ⟨rfl, fun hc => absurd hc (by
        simp [hasAuthorizationHeader, messagesRequest])⟩
  | sendMessage i c =>
      exact ⟨rfl, fun hc => absurd hc (by
        simp [hasAuthorizationHeader, sendMessageRequest, contentTypeJson])⟩
  | addReaction i m e =>
      exact ⟨rfl, fun hc => absurd hc (by
        simp [hasAuthorizationHeader, addReactionRequest, contentTypeJson])⟩
  | editFetch i =>
      exact ⟨rfl, fun hc => absurd hc (by
        simp [hasAuthorizationHeader, alertEditFetchRequest])⟩
  | submit b i a =>
      exact ⟨rfl, fun hc => absurd hc (by
        simp [hasAuthorizationHeader, alertSubmitRequest])⟩
  | delete i =>
      exact ⟨rfl, fun hc => absurd hc (by
        simp [hasAuthorizationHeader, alertDeleteRequest])⟩

/-- C3 amended witness: the logout request includes credentials. -/
theorem c3_cookie_auth_witness :
    logoutRequest.credentialsInclude = true :=
  (c3_cookie_auth_except_list_create logoutRequest
    IsClientRequest.logout).1

/-- C5 counterexample: the delete submission of `AlertEdit.tsx` is a
bodiless DELETE, not the multipart shape the claim asserts for it. -/
theorem c5_counterexample :
    (alertDeleteRequest "1").method = HttpMethod.DELETE
    ∧ ¬ ∃ parts, (alertDeleteRequest "1").body =
        RequestBody.formData parts := by
  refine ⟨rfl, ?_⟩
  rintro ⟨parts, hp⟩
  simp [alertDeleteRequest] at hp

/-- A concrete alert form for witnesses. -/
def sampleAlertForm : AlertFormState :=
  ⟨"title", "desc", 1, "low", "", "", 0, false, "", 0, 0, 0, none⟩

/-- C5 amended: every save submission of the alert edit form is multipart
form data whose parts are exactly one JSON-encoded field under key
`alert` (the alert payload fields) plus a binary `file` field if and only
if an image file has been selected; the request is a POST to `/alerts`
when creating and a PUT to `/alerts/{id}` when editing, and create and
update share the same multipart body — while the delete submission is a
DELETE to `/alerts/{id}` with no body at all. -/
theorem c5_multipart_submission_shape (b : Bool) (i : String)
    (a : AlertFormState) :
    (alertSubmitRequest b i a).body =
      RequestBody.formData (submitFormParts a)
    ∧ (submitFormParts a).head? =
        some (FormPart.jsonField "alert" (payloadFields a))
    ∧ ((submitFormParts a).countP fun p =>
        match p with
        | FormPart.jsonField _ _ => true
        | FormPart.fileField _ _ => false) = 1
    ∧ ((submitFormParts a).countP fun p =>
        match p with
        | FormPart.jsonField _ _ => false
        | FormPart.fileField _ _ => true) =
        (if a.image.isSome then 1 else 0)
    ∧ (b = true → (alertSubmitRequest b i a).method = HttpMethod.PUT
        ∧ (alertSubmitRequest b i a).path = "/alerts/" ++ i)
    ∧ (b = false → (alertSubmitRequest b i a).method = HttpMethod.POST
        ∧ (alertSubmitRequest b i a).path = "/alerts")
    ∧ (alertSubmitRequest true i a).body = (alertSubmitRequest false i a).body
    ∧ (alertDeleteRequest i).method = HttpMethod.DELETE
    ∧ (alertDeleteRequest i).body = RequestBody.none := by
  cases b <;> cases ha : a.image <;>
    simp [alertSubmitRequest, alertDeleteRequest, submitFormParts,
      List.countP_cons, ha]

/-- C5 amended witness: editing alert 4 with no image selected sends a
PUT whose form data is the single JSON field. -/
theorem c5_multipart_submission_witness :
    (alertSubmitRequest true "4" sampleAlertForm).method = HttpMethod.PUT
    ∧ (alertSubmitRequest true "4" sampleAlertForm).path = "/alerts/4" :=
  (c5_multipart_submission_shape true "4" sampleAlertForm).2.2.2.2.1 rfl

/-- C6: `fetchAlertDetail` on the detail page sets `alertData` to the
fetched alert record with its `messages` field replaced by the separately
fetched message list; if the id parameter is absent or either of the two
fetches fails, `alertData` is left unchanged (no partial merge is stored)
and `error` is set to the corresponding message. -/
theorem c6_fetch_alert_detail (i : Option String)
    (fa : FetchOutcome Alert) (fm : FetchOutcome (List Message))
    (s : AlertDetailState) :
    (i = none →
      (fetchAlertDetail i fa fm s).alertData = s.alertData
      ∧ (fetchAlertDetail i fa fm s).error = "No alert ID provided.")
    ∧ (∀ x e, i = some x → fa = Except.error e →
      (fetchAlertDetail i fa fm s).alertData = s.alertData
      ∧ (fetchAlertDetail i fa fm s).error = e)
    ∧ (∀ x a e, i = some x → fa = Except.ok a → fm = Except.error e →
      (fetchAlertDetail i fa fm s).alertData = s.alertData
      ∧ (fetchAlertDetail i fa fm s).error = e)
    ∧ (∀ x a msgs, i = some x → fa = Except.ok a → fm = Except.ok msgs →
      (fetchAlertDetail i fa fm s).alertData =
        some { a with messages := msgs }
      ∧ (fetchAlertDetail i fa fm s).error = s.error) := by
  refine ⟨?_, ?_, ?_, ?_⟩
  · intro hi
    subst hi
    simp [fetchAlertDetail]
  · intro x e hi hfa
    subst hi
    subst hfa
    simp [fetchAlertDetail]
  · intro x a e hi hfa hfm
    subst hi
    subst hfa
    subst hfm
    simp [fetchAlertDetail]
  · intro x a msgs hi hfa hfm
    subst hi
    subst hfa
    subst hfm
    simp [fetchAlertDetail]

/-- C6 witness: with id 9, an alert fetched without messages and a
two-message list, the stored record is the alert with the fetched
messages; with a failing messages fetch, `alertData` stays null and the
error message is stored. -/
theorem c6_fetch_alert_detail_witness :
    (fetchAlertDetail (some "9")
      (Except.ok ⟨9, "fire", "big fire", 1, none, none, "2025-01-01", 2, []⟩)
      (Except.ok [⟨1, "hi", ⟨2, "bob"⟩, [], false, 2⟩,
                  ⟨2, "yo", ⟨3, "eve"⟩, [], false, 3⟩])
      ⟨none, ""⟩).alertData =
      some ⟨9, "fire", "big fire", 1, none, none, "2025-01-01", 2,
        [⟨1, "hi", ⟨2, "bob"⟩, [], false, 2⟩,
         ⟨2, "yo", ⟨3, "eve"⟩, [], false, 3⟩]⟩
    ∧ (fetchAlertDetail (some "9")
      (Except.ok ⟨9, "fire", "big fire", 1, none, none, "2025-01-01", 2, []⟩)
      (Except.error "Error retrieving messages")
      ⟨none, ""⟩).alertData = none
    ∧ (fetchAlertDetail (some "9")
      (Except.ok ⟨9, "fire", "big fire", 1, none, none, "2025-01-01", 2, []⟩)
      (Except.error "Error retrieving messages")
      ⟨none, ""⟩).error = "Error retrieving messages" := by
  have hok := (c6_fetch_alert_detail (some "9")
    (Except.ok ⟨9, "fire", "big fire", 1, none, none, "2025-01-01", 2, []⟩)
    (Except.ok [⟨1, "hi", ⟨2, "bob"⟩, [], false, 2⟩,
                ⟨2, "yo", ⟨3, "eve"⟩, [], false, 3⟩])
    ⟨none, ""⟩).2.2.2 "9"
    ⟨9, "fire", "big fire", 1, none, none, "2025-01-01", 2, []⟩
    [⟨1, "hi", ⟨2, "bob"⟩, [], false, 2⟩,
     ⟨2, "yo", ⟨3, "eve"⟩, [], false, 3⟩] rfl rfl rfl
  have herr := (c6_fetch_alert_detail (some "9")
    (Except.ok ⟨9, "fire", "big fire", 1, none, none, "2025-01-01", 2, []⟩)
    (Except.error "Error retrieving messages")
    ⟨none, ""⟩).2.2.1 "9"
    ⟨9, "fire", "big fire", 1, none, none, "2025-01-01", 2, []⟩
    "Error retrieving messages" rfl rfl rfl
  exact ⟨hok.1, herr.1, herr.2⟩

/-- C7: for every routing state in which authentication loading has
finished and no user is present, rendering any protected route (any path
other than `/login`) yields a redirect to the login page, so no protected
page component is ever rendered without an authenticated user. -/
theorem c7_unauthenticated_redirect (path : String) :
    (path ≠ "/login" →
      renderApp false none path = Rendered.redirect "/login")
    ∧ (∀ p, renderApp false none path ≠ Rendered.page p) := by
  constructor
  · intro hp
    simp [renderApp, protectedRoutes, hp]
  · intro p
    by_cases hp : path = "/login" <;>
      simp [renderApp, protectedRoutes, hp]

/-- C7 witness: an unauthenticated render of `/alerts/5` redirects to the
login page. -/
theorem c7_unauthenticated_redirect_witness :
    renderApp false none "/alerts/5" = Rendered.redirect "/login" :=
  (c7_unauthenticated_redirect "/alerts/5").1 (by decide)

